import Mathlib

/-!
Verification of the session and request-lifecycle core of the Smart Research
Assistant client (`src/frontend/src/App.js`).

The embedding translates the five core functions of the source —
`checkAuthStatus`, `fetchUserStats`, `fetchUserReports`,
`submitResearchQuestion` and `pollForResults` — into pure Lean functions.
Every outbound call result is an explicit `ApiResult` value (the source
classifies axios failures with `isNetworkError`: a failure with no response
is Unreachable, a failure with a response is Rejected).  `Date.now()` and
`new Date().toISOString()` are threaded as explicit `nowMs` / `nowIso`
parameters.  React `setX` state updates become field updates on an explicit
`SessionState`; `toast.success` / `toast.error` calls are collected in a
`Toast` list; `localStorage` writes become an explicit `StorageOp` list.
-/

namespace App

/-- Result of one outbound call, as classified by the source code:
`ok` when the request succeeded, `unreachable` when no response was received
at all (`err.isAxiosError && !err.response`), `rejected` when a response with
a non-success status arrived (carrying its detail message). -/
inductive ApiResult (α : Type) where
  | ok (data : α)
  | unreachable
  | rejected (detail : String)
  deriving Repr, DecidableEq

/-- Returns `true` exactly on the successful variant. -/
def ApiResult.isOk {α : Type} : ApiResult α → Bool
  | .ok _ => true
  | _ => false

/-- A user-visible toast message emitted by the source (`toast.success` /
`toast.error`). -/
inductive Toast where
  | success (msg : String)
  | error (msg : String)
  deriving Repr, DecidableEq

/-- The `Identity` record (`currentUser` in the source).  The `credits`
field is optional because cached or backend records need not carry it
(the source reads it as `currentUser.credits ?? 100`). -/
structure Identity where
  id : String
  name : String
  email : String
  credits : Option Int
  created_at : String
  deriving Repr, DecidableEq

/-- An entry of the pending-file set (`uploadedFiles` in the source). -/
structure UploadedFile where
  id : String
  name : String
  size : Nat
  deriving Repr, DecidableEq

/-- The `AccountStats` record (`userStats` in the source), with the
source field names. -/
structure UserStats where
  credits_remaining : Int
  total_questions_asked : Nat
  reports_generated : Nat
  credits_used : Nat
  deriving Repr, DecidableEq

/-- A `Report` record, with the source field names (the body text is the
field named `report`, as in the source). -/
structure Report where
  id : String
  question_id : String
  user_id : String
  report : String
  citations : List String
  sources_used : List String
  live_data_included : Bool
  created_at : String
  deriving Repr, DecidableEq

/-- A `ResearchQuestion` record, with the source field names. -/
structure Question where
  id : String
  user_id : String
  question : String
  files : List String
  status : String
  created_at : String
  deriving Repr, DecidableEq

/-- One element of the Report collection: the backend (and the local
fallback in `submitResearchQuestion`) deliver `{report, question}` pairs. -/
structure ReportItem where
  report : Report
  question : Question
  deriving Repr, DecidableEq

/-- A locally-synthesized identity is recognized by its id prefix:
the source checks `String(currentUser.id).startsWith` with the text `local-` (computed on the
character list so that the kernel can evaluate it). -/
def isLocalId (id : String) : Bool :=
  ("local-").data.isPrefixOf id.data

/-- JavaScript `String.prototype.trim()`: strip whitespace from both ends
(computed structurally on the character list so that the kernel can
evaluate it). -/
def jsTrim (s : String) : String :=
  ⟨((s.data.dropWhile Char.isWhitespace).reverse.dropWhile Char.isWhitespace).reverse⟩

/-- One `localStorage` operation on the single fixed key
`researchAssistantUser`. -/
inductive StorageOp where
  | setItem (u : Identity)
  | removeItem
  deriving Repr, DecidableEq

/-- Replay a list of storage operations over the stored record. -/
def applyStorage (stored : Option Identity) : List StorageOp → Option Identity
  | [] => stored
  | .setItem u :: rest => applyStorage (some u) rest
  | .removeItem :: rest => applyStorage none rest

/-- Outcome of `checkAuthStatus`: the resulting active identity, whether the
auth modal was opened (`setShowAuth(true)`), and the storage operations
performed, in order. -/
structure AuthResult where
  currentUser : Option Identity
  showAuth : Bool
  storageOps : List StorageOp
  deriving Repr, DecidableEq

/-- The local fallback identity created when the backend is unreachable on
create: `{id: local-<Date.now()>, name: "Research User",
email: user_<Date.now()>@example.com, credits: 100,
created_at: new Date().toISOString()}`. -/
def localIdentity (nowMs : Nat) (nowIso : String) : Identity :=
  { id := "local-" ++ toString nowMs
    name := "Research User"
    email := "user_" ++ toString nowMs ++ "@example.com"
    credits := some 100
    created_at := nowIso }

/-- The create-a-new-user tail of `checkAuthStatus` (the source after the
`// Create new user only if no valid user exists` comment): `POST users`;
on success persist and use the response; on Unreachable synthesize and
persist a local identity; on Rejected open the auth modal. -/
def createUserFlow (createResp : ApiResult Identity) (nowMs : Nat)
    (nowIso : String) : AuthResult :=
  match createResp with
  | .ok u => { currentUser := some u, showAuth := false, storageOps := [.setItem u] }
  | .unreachable =>
    let lu := localIdentity nowMs nowIso
    { currentUser := some lu, showAuth := false, storageOps := [.setItem lu] }
  | .rejected _ => { currentUser := none, showAuth := true, storageOps := [] }

/-- Embedding of `checkAuthStatus` from the source: if a cached identity exists, verify it
with `GET users/{id}` — on success adopt the response (without any storage
write), on Unreachable keep the cached record (without any storage write),
on Rejected remove the cached record and fall through to user creation;
with no cached identity, go straight to user creation. -/
def checkAuthStatus (saved : Option Identity) (getUserResp : ApiResult Identity)
    (createResp : ApiResult Identity) (nowMs : Nat) (nowIso : String) : AuthResult :=
  match saved with
  | some user =>
    match getUserResp with
    | .ok fresh => { currentUser := some fresh, showAuth := false, storageOps := [] }
    | .unreachable => { currentUser := some user, showAuth := false, storageOps := [] }
    | .rejected _ =>
      let r := createUserFlow createResp nowMs nowIso
      { r with storageOps := .removeItem :: r.storageOps }
  | none => createUserFlow createResp nowMs nowIso

/-- The local default `AccountStats` used by the source both for a
locally-synthesized identity and as the Unreachable fallback:
`{credits_remaining: currentUser.credits ?? 100, total_questions_asked: 0,
reports_generated: 0, credits_used: 0}`. -/
def localDefaultStats (user : Identity) : UserStats :=
  { credits_remaining := user.credits.getD 100
    total_questions_asked := 0
    reports_generated := 0
    credits_used := 0 }

/-- Result of one `fetchUserStats` run: the new `userStats` value and
whether a remote call was issued. -/
structure StatsFetchResult where
  stats : Option UserStats
  remoteCalled : Bool
  deriving Repr, DecidableEq

/-- Embedding of `fetchUserStats` from the source: a locally-synthesized identity gets the
local defaults without any backend call; otherwise `GET stats/{id}` — on
success adopt the response, on Unreachable substitute the local defaults, on
Rejected log and keep the previous value. -/
def fetchUserStats (user : Identity) (prev : Option UserStats)
    (resp : ApiResult UserStats) : StatsFetchResult :=
  if isLocalId user.id then
    { stats := some (localDefaultStats user), remoteCalled := false }
  else
    match resp with
    | .ok s => { stats := some s, remoteCalled := true }
    | .unreachable => { stats := some (localDefaultStats user), remoteCalled := true }
    | .rejected _ => { stats := prev, remoteCalled := true }

/-- Result of one `fetchUserReports` run: the new Report collection and
whether a remote call was issued. -/
structure ReportsFetchResult where
  reports : List ReportItem
  remoteCalled : Bool
  deriving Repr, DecidableEq

/-- Embedding of `fetchUserReports` from the source: a locally-synthesized identity gets
the empty collection without any backend call; otherwise `GET reports/{id}`
— on success the collection becomes exactly the response, on Unreachable it
becomes empty, on Rejected log and keep the previous value. -/
def fetchUserReports (user : Identity) (prev : List ReportItem)
    (resp : ApiResult (List ReportItem)) : ReportsFetchResult :=
  if isLocalId user.id then
    { reports := [], remoteCalled := false }
  else
    match resp with
    | .ok l => { reports := l, remoteCalled := true }
    | .unreachable => { reports := [], remoteCalled := true }
    | .rejected _ => { reports := prev, remoteCalled := true }

/-- The offline report body, built exactly as the template literal in
`submitResearchQuestion` builds `reportText` from the question text and the
pending file names. -/
def offlineReportText (question : String) (sources : List String) : String :=
  "Key Findings\n- Offline mode: generated a local report.\n- Your question: "
    ++ question
    ++ "\n\nSupporting Evidence\n- Files provided: "
    ++ (if sources.isEmpty then "none" else String.intercalate (", ") sources)
    ++ "\n\nActionable Recommendations\n- Connect the backend to generate AI-powered reports.\n\nSources Referenced\n- "
    ++ (if sources.isEmpty then "No files uploaded" else String.intercalate ("\n- ") sources)

/-- The `localReportItem` synthesized by the offline/local fallback of
`submitResearchQuestion`, verbatim from the source: ids derived from
`Date.now()`, citations are the file names each prefixed with `Source: `,
`sources_used` are the bare file names, `live_data_included` is false and
the question is marked `completed`. -/
def localReportItem (user : Identity) (question : String)
    (files : List UploadedFile) (nowMs : Nat) (nowIso : String) : ReportItem :=
  let qId := "local-q-" ++ toString nowMs
  let rId := "local-r-" ++ toString nowMs
  let sources := files.map (fun f => f.name)
  { report :=
      { id := rId
        question_id := qId
        user_id := user.id
        report := offlineReportText question sources
        citations := sources.map (fun s => "Source: " ++ s)
        sources_used := sources
        live_data_included := false
        created_at := nowIso }
    question :=
      { id := qId
        user_id := user.id
        question := question
        files := files.map (fun f => f.id)
        status := "completed"
        created_at := nowIso } }

/-- The local credit debit of `submitResearchQuestion`:
`credits_remaining = max(0, (prev?.credits_remaining ?? currentUser.credits
?? 100) - 1)` and the three counters each incremented from `prev ?? 0`. -/
def debitStats (prev : Option UserStats) (user : Identity) : UserStats :=
  let credits : Int :=
    (match prev with
     | some s => s.credits_remaining
     | none => user.credits.getD 100) - 1
  { credits_remaining := max 0 credits
    total_questions_asked := (prev.map (fun s => s.total_questions_asked)).getD 0 + 1
    reports_generated := (prev.map (fun s => s.reports_generated)).getD 0 + 1
    credits_used := (prev.map (fun s => s.credits_used)).getD 0 + 1 }

/-- The credit precondition of `submitResearchQuestion`:
`userStats && userStats.credits_remaining < 1` blocks the submission; an
absent `userStats` does not block. -/
def insufficientCredits : Option UserStats → Bool
  | some s => decide (s.credits_remaining < 1)
  | none => false

/-- The mutable session state owned by the core (the React state fields of
the source that the five core functions read and write). -/
structure SessionState where
  currentUser : Option Identity
  question : String
  uploadedFiles : List UploadedFile
  userStats : Option UserStats
  reports : List ReportItem
  activeTab : String
  isProcessing : Bool
  deriving Repr, DecidableEq

/-- How one `submitResearchQuestion` call ended. -/
inductive SubmitOutcome where
  | blockedEmptyQuestion
  | blockedNoUser
  | blockedInsufficientCredits
  | remoteSubmitted (questionId : String)
  | localReport
  | rejectedError
  deriving Repr, DecidableEq

/-- Result of one `submitResearchQuestion` call: the updated session state,
the outcome, and the toasts shown, in order. -/
structure SubmitResult where
  state : SessionState
  outcome : SubmitOutcome
  toasts : List Toast
  deriving Repr, DecidableEq

/-- Embedding of `submitResearchQuestion` from the source.  Preconditions in source
order: non-empty trimmed question, an active identity, and
`credits_remaining ≥ 1` whenever `userStats` is known.  Then `POST research`
(its result is `resp`): on success clear the form and enter polling; on a
failure that is Unreachable — or whenever the active identity is
locally-synthesized — synthesize `localReportItem`, prepend it to the Report
collection, debit the stats, switch the view to `reports` and clear the
form; on any other failure surface an error and leave the form, files and
stats untouched. -/
def submitResearchQuestion (st : SessionState) (resp : ApiResult String)
    (nowMs : Nat) (nowIso : String) : SubmitResult :=
  if jsTrim st.question = "" then
    { state := st, outcome := .blockedEmptyQuestion
      toasts := [.error ("Please enter a research question")] }
  else
    match st.currentUser with
    | none =>
      { state := st, outcome := .blockedNoUser
        toasts := [.error ("Please log in to submit questions")] }
    | some user =>
      if insufficientCredits st.userStats then
        { state := st, outcome := .blockedInsufficientCredits
          toasts := [.error ("Insufficient credits. You need 1 credit to ask a question.")] }
      else
        match resp with
        | .ok qid =>
          { state := { st with isProcessing := true, question := "", uploadedFiles := [] }
            outcome := .remoteSubmitted qid
            toasts := [.success ("Research question submitted! Processing...")] }
        | failure =>
          if failure = ApiResult.unreachable ∨ isLocalId user.id then
            let item := localReportItem user st.question st.uploadedFiles nowMs nowIso
            { state :=
                { st with
                  reports := item :: st.reports
                  isProcessing := false
                  activeTab := "reports"
                  question := ""
                  uploadedFiles := []
                  userStats := some (debitStats st.userStats user) }
              outcome := .localReport
              toasts := [.success ("Local report generated (offline mode)")] }
          else
            { state := { st with isProcessing := false }
              outcome := .rejectedError
              toasts := [.error ("Failed to submit research question")] }

/-- One poll response, as classified at the `GET research/{id}` call site:
a received status string, an Unreachable failure, or a Rejected failure. -/
inductive PollResp where
  | status (s : String)
  | unreachable
  | rejected
  deriving Repr, DecidableEq

/-- How the polling loop of `pollForResults` ended. -/
inductive PollOutcome where
  | completedOk
  | processingFailed
  | timedOut
  | statusCheckError
  deriving Repr, DecidableEq

/-- The `maxAttempts` constant of `pollForResults`. -/
def maxAttempts : Nat := 30

/-- The fixed delay passed to `setTimeout` between polls, in milliseconds. -/
def pollIntervalMs : Nat := 1000

/-- The polling loop of `pollForResults`, with `responses k` the result of
the poll made while the `attempts` counter of the source equals `k` (the counter
starts at 0 and increments by one per rescheduled poll).  The recursion is
structural on `remaining = maxAttempts - attempts`, so the reschedule
guard `attempts < maxAttempts` is `remaining ≠ 0` here.  A received
`completed` or `failed` status terminates; any other received status
reschedules while attempts remain and otherwise times out; an Unreachable
failure reschedules while attempts remain and otherwise reports a
status-check error; a Rejected failure always reports a status-check
error. -/
def pollGoAux (responses : Nat → PollResp) : Nat → Nat → PollOutcome
  | attempts, remaining =>
    match responses attempts with
    | .status s =>
      if s = "completed" then .completedOk
      else if s = "failed" then .processingFailed
      else
        match remaining with
        | r + 1 => pollGoAux responses (attempts + 1) r
        | 0 => .timedOut
    | .unreachable =>
      match remaining with
      | r + 1 => pollGoAux responses (attempts + 1) r
      | 0 => .statusCheckError
    | .rejected => .statusCheckError

/-- The polling loop entered by `pollForResults`: `attempts` starts at 0
with `maxAttempts` reschedules available. -/
def pollGo (responses : Nat → PollResp) : PollOutcome :=
  pollGoAux responses 0 maxAttempts

/-- Embedding of `pollForResults` at the session level: run the polling loop from
`attempts = 0`; on `completedOk` refresh the stats and the Report collection
(the source calls `fetchUserStats()` and `fetchUserReports()`, whose
outbound results are `statsResp` / `reportsResp`) and switch the view to
`reports`; every terminal branch clears `isProcessing` and shows its toast. -/
def pollForResults (st : SessionState) (user : Identity)
    (responses : Nat → PollResp) (statsResp : ApiResult UserStats)
    (reportsResp : ApiResult (List ReportItem)) : SessionState × List Toast :=
  match pollGo responses with
  | .completedOk =>
    ({ st with
        isProcessing := false
        userStats := (fetchUserStats user st.userStats statsResp).stats
        reports := (fetchUserReports user st.reports reportsResp).reports
        activeTab := "reports" },
     [.success ("Research report generated!")])
  | .processingFailed =>
    ({ st with isProcessing := false }, [.error ("Research processing failed")])
  | .timedOut =>
    ({ st with isProcessing := false }, [.error ("Research processing timed out")])
  | .statusCheckError =>
    ({ st with isProcessing := false }, [.error ("Error checking research status")])

/-- One session-level operation after startup: a stats refresh, a report
refresh (each with the result of its outbound call), a submission (with the
result of `POST research` and the clock values), or a logout. -/
inductive SessionOp where
  | fetchStats (resp : ApiResult UserStats)
  | fetchReports (resp : ApiResult (List ReportItem))
  | submit (resp : ApiResult String) (nowMs : Nat) (nowIso : String)
  | logout
  deriving Repr, DecidableEq

/-- One step of the session: the stats and report refreshes run their source
functions against the active identity (and are no-ops without one, as the
source only invokes them when `currentUser` is set); a submission runs
`submitResearchQuestion`; `handleLogout` clears the identity, the stats, the
Report collection and the pending-file set. -/
def stepSession (st : SessionState) : SessionOp → SessionState
  | .fetchStats resp =>
    match st.currentUser with
    | some user => { st with userStats := (fetchUserStats user st.userStats resp).stats }
    | none => st
  | .fetchReports resp =>
    match st.currentUser with
    | some user => { st with reports := (fetchUserReports user st.reports resp).reports }
    | none => st
  | .submit resp nowMs nowIso => (submitResearchQuestion st resp nowMs nowIso).state
  | .logout =>
    { st with currentUser := none, userStats := none, reports := [], uploadedFiles := [] }

/-- Run a sequence of session operations. -/
def runSession (st : SessionState) : List SessionOp → SessionState
  | [] => st
  | op :: rest => runSession (stepSession st op) rest

/-- The non-negativity invariant on the stats snapshot of the session:
`credits_remaining ≥ 0` whenever `userStats` is present. -/
def statsNonneg (st : SessionState) : Bool :=
  match st.userStats with
  | some s => decide (0 ≤ s.credits_remaining)
  | none => true

/-- Non-negativity of the declared credit balance of the active identity (used as
the baseline `currentUser.credits ?? 100` by the local default stats and the
local debit). -/
def userCreditsOk (st : SessionState) : Bool :=
  match st.currentUser with
  | some u =>
    match u.credits with
    | some c => decide (0 ≤ c)
    | none => true
  | none => true

/-- Environment well-formedness of one operation: a successful stats fetch
reports a non-negative `credits_remaining` (backend truth does not hand out
negative balances; the claim ranges over sessions against such a backend). -/
def opOk : SessionOp → Bool
  | .fetchStats (.ok s) => decide (0 ≤ s.credits_remaining)
  | _ => true

/-! Concrete records used by the witnesses and counterexamples. -/

/-- A backend-issued identity whose declared credit balance is zero. -/
def exUserZero : Identity :=
  { id := "u1", name := "Alice", email := "a@example.com", credits := some 0, created_at := "t0" }

/-- A backend-issued identity with 50 declared credits. -/
def exUserFifty : Identity :=
  { id := "u2", name := "Bob", email := "b@example.com", credits := some 50, created_at := "t0" }

/-- A locally-synthesized identity (id carries the `local-` prefix). -/
def exLocalUser : Identity :=
  { id := "local-9", name := "Research User", email := "u@example.com", credits := some 100, created_at := "t0" }

/-- One pending uploaded file. -/
def exFile : UploadedFile := { id := "f1", name := "a.txt", size := 3 }

/-- Session: local identity, one pending file, stats not yet known. -/
def exStLocalNoStats : SessionState :=
  { currentUser := some exLocalUser, question := "Q", uploadedFiles := [exFile],
    userStats := none, reports := [], activeTab := "research", isProcessing := false }

/-- Session: local identity, one pending file, stats known with zero credits. -/
def exStLocalZeroCredits : SessionState :=
  { currentUser := some exLocalUser, question := "Q", uploadedFiles := [exFile],
    userStats := some { credits_remaining := 0, total_questions_asked := 0,
                        reports_generated := 0, credits_used := 0 },
    reports := [], activeTab := "research", isProcessing := false }

/-- Session: local identity, one pending file, stats known with ten credits. -/
def exStLocalTenCredits : SessionState :=
  { currentUser := some exLocalUser, question := "Q", uploadedFiles := [exFile],
    userStats := some { credits_remaining := 10, total_questions_asked := 0,
                        reports_generated := 0, credits_used := 0 },
    reports := [], activeTab := "research", isProcessing := false }

/-- Session: remote identity with zero declared credits, stats never
resolved (the stats fetch was Rejected, which keeps the previous `none`). -/
def exStZeroNoStats : SessionState :=
  { currentUser := some exUserZero, question := "Q", uploadedFiles := [],
    userStats := none, reports := [], activeTab := "research", isProcessing := false }

/-- Session: remote identity, stats known with 50 credits. -/
def exStFifty : SessionState :=
  { currentUser := some exUserFifty, question := "Q", uploadedFiles := [],
    userStats := some { credits_remaining := 50, total_questions_asked := 0,
                        reports_generated := 0, credits_used := 0 },
    reports := [], activeTab := "research", isProcessing := false }

/-- A backend report pair whose question is `completed` (as returned by
`GET reports/{id}` after a remote completion). -/
def exRemoteItem : ReportItem :=
  { report :=
      { id := "r1", question_id := "q1", user_id := "u2", report := "body",
        citations := [], sources_used := [], live_data_included := true, created_at := "t1" }
    question :=
      { id := "q1", user_id := "u2", question := "Q", files := [], status := "completed",
        created_at := "t1" } }

/-- Poll responses: `processing` 29 times, then `completed` on the poll made
at attempts counter 29 (the 30th poll). -/
def exRespCompleted30 : Nat → PollResp :=
  fun i => if i < 29 then .status ("processing") else .status ("completed")

/-- Poll responses: `processing` forever. -/
def exRespProcessing : Nat → PollResp := fun _ => .status ("processing")

/-- Poll responses: Unreachable forever. -/
def exRespUnreachable : Nat → PollResp := fun _ => .unreachable

/-- Poll responses: Rejected immediately. -/
def exRespRejected : Nat → PollResp := fun _ => .rejected

/-! Theorems. -/

/-- The locally-synthesized identity always carries the `local-` id prefix. -/
theorem isLocalId_localIdentity (nowMs : Nat) (nowIso : String) :
    isLocalId (localIdentity nowMs nowIso).id = true := by
  simp [isLocalId, localIdentity, List.isPrefixOf_iff_prefix]

/-- C5: the claim asserts that when a cached Identity exists and backend
verification succeeds, the refreshed record is persisted to local storage.
The code adopts the backend response as the active identity but performs no
`localStorage` write at all on this path, so when the backend response
differs from the cached record (here: same id, refreshed credit balance),
the store still holds the stale cached record, not the refreshed one. -/
theorem c5_refresh_not_persisted_cx :
    (checkAuthStatus (some exUserFifty)
        (.ok { exUserFifty with credits := some 35 }) .unreachable 0 ("T")).currentUser
      = some { exUserFifty with credits := some 35 } ∧
    (checkAuthStatus (some exUserFifty)
        (.ok { exUserFifty with credits := some 35 }) .unreachable 0 ("T")).storageOps = [] ∧
    applyStorage (some exUserFifty) [] = some exUserFifty ∧
    exUserFifty ≠ ({ exUserFifty with credits := some 35 } : Identity) := by
  refine ⟨rfl, rfl, rfl, ?_⟩
  decide

/-- C5 (amended): when a cached Identity exists and its backend verification
succeeds, the active Identity equals the backend response (the refreshed
record), but no write to local storage occurs: the store retains the
previously cached record. -/
theorem c5_refresh_amended (saved fresh : Identity) (create : ApiResult Identity)
    (nowMs : Nat) (nowIso : String) :
    checkAuthStatus (some saved) (.ok fresh) create nowMs nowIso =
      { currentUser := some fresh, showAuth := false, storageOps := [] } ∧
    applyStorage (some saved)
        (checkAuthStatus (some saved) (.ok fresh) create nowMs nowIso).storageOps
      = some saved := by
  exact ⟨rfl, rfl⟩

/-- C7: when a cached Identity exists and the backend verification fails as
Unreachable, the active Identity is exactly the cached record and no storage
operation (write or removal) is performed, so the store is unchanged. -/
theorem c7_unreachable_keeps_cached (u : Identity) (create : ApiResult Identity)
    (nowMs : Nat) (nowIso : String) :
    checkAuthStatus (some u) .unreachable create nowMs nowIso =
      { currentUser := some u, showAuth := false, storageOps := [] } ∧
    applyStorage (some u)
        (checkAuthStatus (some u) .unreachable create nowMs nowIso).storageOps
      = some u := by
  exact ⟨rfl, rfl⟩

/-- C8: with no cached Identity and an Unreachable create-identity call, the
active Identity becomes the locally-synthesized record: its id carries the
`local-` prefix, its credits are 100, its `created_at` is the current
timestamp, and exactly this record is written to local storage. -/
theorem c8_offline_create_local (g : ApiResult Identity) (nowMs : Nat) (nowIso : String) :
    checkAuthStatus none g .unreachable nowMs nowIso =
      { currentUser := some (localIdentity nowMs nowIso), showAuth := false,
        storageOps := [.setItem (localIdentity nowMs nowIso)] } ∧
    isLocalId (localIdentity nowMs nowIso).id = true ∧
    (localIdentity nowMs nowIso).credits = some 100 ∧
    (localIdentity nowMs nowIso).created_at = nowIso ∧
    applyStorage none
        (checkAuthStatus none g .unreachable nowMs nowIso).storageOps
      = some (localIdentity nowMs nowIso) := by
  exact ⟨rfl, isLocalId_localIdentity nowMs nowIso, rfl, rfl, rfl⟩

/-- C9: the stats fetch (i) for a locally-synthesized identity issues no
remote call and uses the local defaults; (ii) on an Unreachable failure
substitutes the same local defaults (no error state exists on this branch);
(iii) on a Rejected failure keeps the previous AccountStats value; and the
local defaults are `creditsRemaining = identity.credits ?? 100` with all
counters zero. -/
theorem c9_stats_fallback :
    (∀ (user : Identity) (prev : Option UserStats) (resp : ApiResult UserStats),
      isLocalId user.id = true →
        fetchUserStats user prev resp =
          { stats := some (localDefaultStats user), remoteCalled := false }) ∧
    (∀ (user : Identity) (prev : Option UserStats),
      isLocalId user.id = false →
        fetchUserStats user prev .unreachable =
          { stats := some (localDefaultStats user), remoteCalled := true }) ∧
    (∀ (user : Identity) (prev : Option UserStats) (d : String),
      isLocalId user.id = false →
        fetchUserStats user prev (.rejected d) = { stats := prev, remoteCalled := true }) ∧
    (∀ user : Identity,
      localDefaultStats user =
        { credits_remaining := user.credits.getD 100, total_questions_asked := 0,
          reports_generated := 0, credits_used := 0 }) := by
  refine ⟨?_, ?_, ?_, fun _ => rfl⟩
  · intro user prev resp h
    simp [fetchUserStats, h]
  · intro user prev h
    simp [fetchUserStats, h]
  · intro user prev d h
    simp [fetchUserStats, h]

/-- C9 (witness): the three branches at concrete inputs. -/
theorem c9_stats_fallback_witness :
    fetchUserStats exLocalUser none .unreachable =
      { stats := some (localDefaultStats exLocalUser), remoteCalled := false } ∧
    fetchUserStats exUserFifty none .unreachable =
      { stats := some (localDefaultStats exUserFifty), remoteCalled := true } ∧
    fetchUserStats exUserFifty
        (some { credits_remaining := 7, total_questions_asked := 1,
                reports_generated := 1, credits_used := 1 }) (.rejected ("boom")) =
      { stats := some { credits_remaining := 7, total_questions_asked := 1,
                        reports_generated := 1, credits_used := 1 }, remoteCalled := true } := by
  refine ⟨c9_stats_fallback.1 exLocalUser none .unreachable (by decide),
    c9_stats_fallback.2.1 exUserFifty none (by decide),
    c9_stats_fallback.2.2.1 exUserFifty _ ("boom") (by decide)⟩

/-- C10: the report-history refresh never merges: a successful fetch makes
the collection exactly the backend response, a fetch for a
locally-synthesized identity issues no call and empties the collection, an
Unreachable fetch empties it; consequently an item absent from a successful
response (such as a previously prepended local Report) is gone after any
refresh whose outbound result succeeded, and gone after a local-identity or
Unreachable refresh. -/
theorem c10_reports_replaced :
    (∀ (user : Identity) (prev l : List ReportItem),
      isLocalId user.id = false →
        fetchUserReports user prev (.ok l) = { reports := l, remoteCalled := true }) ∧
    (∀ (user : Identity) (prev : List ReportItem) (resp : ApiResult (List ReportItem)),
      isLocalId user.id = true →
        fetchUserReports user prev resp = { reports := [], remoteCalled := false }) ∧
    (∀ (user : Identity) (prev : List ReportItem),
      isLocalId user.id = false →
        fetchUserReports user prev .unreachable = { reports := [], remoteCalled := true }) ∧
    (∀ (user : Identity) (prev l : List ReportItem) (r : ReportItem),
      r ∉ l → r ∉ (fetchUserReports user prev (.ok l)).reports) := by
  refine ⟨?_, ?_, ?_, ?_⟩
  · intro user prev l h
    simp [fetchUserReports, h]
  · intro user prev resp h
    simp [fetchUserReports, h]
  · intro user prev h
    simp [fetchUserReports, h]
  · intro user prev l r hr
    by_cases h : isLocalId user.id <;> simp [fetchUserReports, h, hr]

/-- C10 (witness): a previously prepended local Report is discarded by a
successful refresh that does not contain it, and by an Unreachable refresh. -/
theorem c10_reports_replaced_witness :
    fetchUserReports exUserFifty
        [localReportItem exLocalUser ("Q") [exFile] 5 ("T")] (.ok [exRemoteItem]) =
      { reports := [exRemoteItem], remoteCalled := true } ∧
    fetchUserReports exUserFifty
        [localReportItem exLocalUser ("Q") [exFile] 5 ("T")] .unreachable =
      { reports := [], remoteCalled := true } ∧
    fetchUserReports exLocalUser
        [localReportItem exLocalUser ("Q") [exFile] 5 ("T")] .unreachable =
      { reports := [], remoteCalled := false } := by
  refine ⟨c10_reports_replaced.1 exUserFifty _ _ (by decide),
    c10_reports_replaced.2.2.1 exUserFifty _ (by decide),
    c10_reports_replaced.2.1 exLocalUser _ _ (by decide)⟩

/-- The offline/local fallback branch of `submitResearchQuestion` in closed
form: when the preconditions pass and the submission call fails as
Unreachable — or the active identity is locally-synthesized and the call did
not succeed — the call synthesizes the local report pair, prepends it, debits
the stats, switches the view and clears the form. -/
theorem submit_local_eq (st : SessionState) (user : Identity) (resp : ApiResult String)
    (nowMs : Nat) (nowIso : String)
    (hu : st.currentUser = some user)
    (hq : jsTrim st.question ≠ "")
    (hcred : insufficientCredits st.userStats = false)
    (hresp : resp = ApiResult.unreachable ∨ (isLocalId user.id = true ∧ resp.isOk = false)) :
    submitResearchQuestion st resp nowMs nowIso =
      { state :=
          { st with
            reports := localReportItem user st.question st.uploadedFiles nowMs nowIso :: st.reports
            isProcessing := false
            activeTab := "reports"
            question := ""
            uploadedFiles := []
            userStats := some (debitStats st.userStats user) }
        outcome := .localReport
        toasts := [.success ("Local report generated (offline mode)")] } := by
  rcases hresp with rfl | ⟨hl, hok⟩
  · simp [submitResearchQuestion, hq, hu, hcred]
  · cases resp with
    | ok q => simp [ApiResult.isOk] at hok
    | unreachable => simp [submitResearchQuestion, hq, hu, hcred]
    | rejected d => simp [submitResearchQuestion, hq, hu, hcred, hl]

/-- The Rejected branch of `submitResearchQuestion` in closed form: when the
preconditions pass, the identity is not locally-synthesized and the call was
Rejected, only `isProcessing` changes and an error toast is shown. -/
theorem submit_rejected_eq (st : SessionState) (user : Identity) (d : String)
    (nowMs : Nat) (nowIso : String)
    (hu : st.currentUser = some user)
    (hq : jsTrim st.question ≠ "")
    (hcred : insufficientCredits st.userStats = false)
    (hlocal : isLocalId user.id = false) :
    submitResearchQuestion st (.rejected d) nowMs nowIso =
      { state := { st with isProcessing := false }
        outcome := .rejectedError
        toasts := [.error ("Failed to submit research question")] } := by
  simp [submitResearchQuestion, hq, hu, hcred, hlocal]

/-- The function `submitResearchQuestion` never changes the active identity. -/
theorem submit_currentUser_eq (st : SessionState) (resp : ApiResult String)
    (nowMs : Nat) (nowIso : String) :
    (submitResearchQuestion st resp nowMs nowIso).state.currentUser = st.currentUser := by
  unfold submitResearchQuestion
  split
  · rfl
  split
  · rfl
  split
  · rfl
  split
  · rfl
  split
  · rfl
  · rfl

/-- The function `submitResearchQuestion` either leaves the stats untouched or applies the
local debit for the active identity. -/
theorem submit_userStats_cases (st : SessionState) (resp : ApiResult String)
    (nowMs : Nat) (nowIso : String) :
    (submitResearchQuestion st resp nowMs nowIso).state.userStats = st.userStats ∨
    ∃ user, st.currentUser = some user ∧
      (submitResearchQuestion st resp nowMs nowIso).state.userStats
        = some (debitStats st.userStats user) := by
  unfold submitResearchQuestion
  split
  · exact Or.inl rfl
  split
  · exact Or.inl rfl
  rename_i user heq
  split
  · exact Or.inl rfl
  split
  · exact Or.inl rfl
  split
  · exact Or.inr ⟨user, heq, rfl⟩
  · exact Or.inl rfl

/-- C1: the claim states that the citations of the synthesized Report equal the
uploaded file names, and that submission succeeds for *every* non-empty
question and pending-file set.  Both parts fail on the code: (i) the
citations are the file names each prefixed with `Source: ` (here
`["Source: a.txt"] ≠ ["a.txt"]`); (ii) when AccountStats is known with
`creditsRemaining < 1`, the submission is blocked with an
insufficient-credits error before any call, and no Report is synthesized
even though the identity is local and the call would be Unreachable. -/
theorem c1_offline_submit_cx :
    (submitResearchQuestion exStLocalNoStats .unreachable 5 ("T")).state.reports.map
        (fun it => it.report.citations) = [[("Source: a.txt")]] ∧
    ([("Source: a.txt")] : List String) ≠ [("a.txt")] ∧
    (submitResearchQuestion exStLocalZeroCredits .unreachable 5 ("T")).outcome
      = .blockedInsufficientCredits ∧
    (submitResearchQuestion exStLocalZeroCredits .unreachable 5 ("T")).state.reports = [] := by
  refine ⟨by decide, by decide, by decide, by decide⟩

/-- C1 (amended): if the submission call fails as Unreachable — or the
active identity is locally-synthesized and the call does not succeed (a
local id never exists server-side, so a success response is excluded by the
data model) — then for every non-empty question text and every pending-file
set, provided an identity is active and `creditsRemaining ≥ 1` whenever
AccountStats is known, submit succeeds from the user perspective: it
synthesizes a Report deterministically from the question text and the
pending file names (body enumerating the question, the offline-mode notice
and the connect-a-backend recommendation; citations are the file names each
prefixed with `Source: `; sourcesUsed are the file names;
`includesLiveData = false`), prepends it to the Report collection, marks an
equivalent ResearchQuestion `completed`, switches the active view to
reports, clears the question text and the pending-file set, and surfaces no
error toast. -/
theorem c1_offline_submit_amended (st : SessionState) (user : Identity)
    (resp : ApiResult String) (nowMs : Nat) (nowIso : String)
    (hu : st.currentUser = some user)
    (hq : jsTrim st.question ≠ "")
    (hcred : insufficientCredits st.userStats = false)
    (hresp : resp = ApiResult.unreachable ∨ (isLocalId user.id = true ∧ resp.isOk = false)) :
    (submitResearchQuestion st resp nowMs nowIso).outcome = .localReport ∧
    (submitResearchQuestion st resp nowMs nowIso).state.reports =
      localReportItem user st.question st.uploadedFiles nowMs nowIso :: st.reports ∧
    (localReportItem user st.question st.uploadedFiles nowMs nowIso).report.report =
      offlineReportText st.question (st.uploadedFiles.map (fun f => f.name)) ∧
    (localReportItem user st.question st.uploadedFiles nowMs nowIso).report.citations =
      st.uploadedFiles.map (fun f => "Source: " ++ f.name) ∧
    (localReportItem user st.question st.uploadedFiles nowMs nowIso).report.sources_used =
      st.uploadedFiles.map (fun f => f.name) ∧
    (localReportItem user st.question st.uploadedFiles nowMs nowIso).report.live_data_included
      = false ∧
    (localReportItem user st.question st.uploadedFiles nowMs nowIso).question.status
      = "completed" ∧
    (localReportItem user st.question st.uploadedFiles nowMs nowIso).question.question
      = st.question ∧
    (submitResearchQuestion st resp nowMs nowIso).state.activeTab = "reports" ∧
    (submitResearchQuestion st resp nowMs nowIso).state.question = "" ∧
    (submitResearchQuestion st resp nowMs nowIso).state.uploadedFiles = [] ∧
    (submitResearchQuestion st resp nowMs nowIso).toasts =
      [.success ("Local report generated (offline mode)")] := by
  rw [submit_local_eq st user resp nowMs nowIso hu hq hcred hresp]
  refine ⟨rfl, rfl, rfl, ?_, rfl, rfl, rfl, rfl, rfl, rfl, rfl, rfl⟩
  simp [localReportItem]

/-- C1 (amended, witness): a local identity with one pending file, stats
unknown, call Rejected — a Report is still synthesized and prepended. -/
theorem c1_offline_submit_amended_witness :
    (submitResearchQuestion exStLocalNoStats (.rejected ("boom")) 5 ("T")).outcome
      = .localReport ∧
    (submitResearchQuestion exStLocalNoStats (.rejected ("boom")) 5 ("T")).state.reports =
      localReportItem exLocalUser ("Q") [exFile] 5 ("T") :: [] ∧
    (submitResearchQuestion exStLocalNoStats (.rejected ("boom")) 5 ("T")).state.activeTab
      = "reports" ∧
    (submitResearchQuestion exStLocalNoStats (.rejected ("boom")) 5 ("T")).toasts =
      [.success ("Local report generated (offline mode)")] := by
  have h := c1_offline_submit_amended exStLocalNoStats exLocalUser (.rejected ("boom")) 5 ("T")
    rfl (by decide) rfl (Or.inr ⟨by decide, rfl⟩)
  exact ⟨h.1, h.2.1, h.2.2.2.2.2.2.2.2.1, h.2.2.2.2.2.2.2.2.2.2.2⟩

/-- C4: the claim extends the Rejected contract to locally-synthesized
identities; on the code, a Rejected submission with a local identity takes
the offline-synthesis path instead: the pending-file set and question text
are cleared (not left untouched), one credit is debited, and a success toast
is shown instead of an error. -/
theorem c4_rejected_submit_cx :
    (submitResearchQuestion exStLocalTenCredits (.rejected ("boom")) 5 ("T")).state.uploadedFiles
      = [] ∧
    exStLocalTenCredits.uploadedFiles = [exFile] ∧
    ([] : List UploadedFile) ≠ [exFile] ∧
    (submitResearchQuestion exStLocalTenCredits (.rejected ("boom")) 5 ("T")).state.userStats =
      some { credits_remaining := 9, total_questions_asked := 1,
             reports_generated := 1, credits_used := 1 } ∧
    exStLocalTenCredits.userStats =
      some { credits_remaining := 10, total_questions_asked := 0,
             reports_generated := 0, credits_used := 0 } ∧
    (submitResearchQuestion exStLocalTenCredits (.rejected ("boom")) 5 ("T")).toasts =
      [.success ("Local report generated (offline mode)")] := by
  refine ⟨by decide, by decide, by decide, by decide, by decide, by decide⟩

/-- C4 (amended): for every submission whose outcome is Rejected, *provided
the active identity is not locally-synthesized*, the error is surfaced, the
question text, pending-file set, stats and Report collection are left
untouched so the user may retry, and no credit is debited; a
locally-synthesized identity instead takes the offline-synthesis path. -/
theorem c4_rejected_submit_amended (st : SessionState) (user : Identity) (d : String)
    (nowMs : Nat) (nowIso : String)
    (hu : st.currentUser = some user)
    (hq : jsTrim st.question ≠ "")
    (hcred : insufficientCredits st.userStats = false)
    (hlocal : isLocalId user.id = false) :
    (submitResearchQuestion st (.rejected d) nowMs nowIso).outcome = .rejectedError ∧
    (submitResearchQuestion st (.rejected d) nowMs nowIso).state.question = st.question ∧
    (submitResearchQuestion st (.rejected d) nowMs nowIso).state.uploadedFiles
      = st.uploadedFiles ∧
    (submitResearchQuestion st (.rejected d) nowMs nowIso).state.userStats = st.userStats ∧
    (submitResearchQuestion st (.rejected d) nowMs nowIso).state.reports = st.reports ∧
    (submitResearchQuestion st (.rejected d) nowMs nowIso).toasts =
      [.error ("Failed to submit research question")] := by
  rw [submit_rejected_eq st user d nowMs nowIso hu hq hcred hlocal]
  exact ⟨rfl, rfl, rfl, rfl, rfl, rfl⟩

/-- C4 (amended, witness): a remote identity with stats known and a Rejected
call — everything is left in place and the error is surfaced. -/
theorem c4_rejected_submit_amended_witness :
    (submitResearchQuestion exStFifty (.rejected ("boom")) 5 ("T")).outcome = .rejectedError ∧
    (submitResearchQuestion exStFifty (.rejected ("boom")) 5 ("T")).state.userStats =
      exStFifty.userStats ∧
    (submitResearchQuestion exStFifty (.rejected ("boom")) 5 ("T")).toasts =
      [.error ("Failed to submit research question")] := by
  have h := c4_rejected_submit_amended exStFifty exUserFifty ("boom") 5 ("T")
    rfl (by decide) rfl (by decide)
  exact ⟨h.1, h.2.2.2.1, h.2.2.2.2.2⟩

/-- The local debit clamps at zero, so it can never produce a negative
balance. -/
theorem debitStats_nonneg (prev : Option UserStats) (user : Identity) :
    0 ≤ (debitStats prev user).credits_remaining :=
  le_max_left 0 _

/-- The local default stats are non-negative whenever the declared balance
of the identity is. -/
theorem localDefaultStats_nonneg (user : Identity)
    (h : ∀ c, user.credits = some c → 0 ≤ c) :
    0 ≤ (localDefaultStats user).credits_remaining := by
  cases hc : user.credits with
  | none => simp [localDefaultStats, hc]
  | some c => simpa [localDefaultStats, hc] using h c hc

/-- No session operation changes the active identity except logout, which
clears it; in all cases `userCreditsOk` is preserved. -/
theorem step_userCreditsOk (st : SessionState) (op : SessionOp)
    (h : userCreditsOk st = true) : userCreditsOk (stepSession st op) = true := by
  cases op with
  | fetchStats resp =>
    cases hcur : st.currentUser with
    | none => simpa [stepSession, hcur] using h
    | some user =>
      simp only [stepSession, hcur, userCreditsOk]
      rw [userCreditsOk, hcur] at h
      exact h
  | fetchReports resp =>
    cases hcur : st.currentUser with
    | none => simpa [stepSession, hcur] using h
    | some user =>
      simp only [stepSession, hcur, userCreditsOk]
      rw [userCreditsOk, hcur] at h
      exact h
  | submit resp nowMs nowIso =>
    simp only [stepSession]
    rw [userCreditsOk, submit_currentUser_eq st resp nowMs nowIso]
    rw [userCreditsOk] at h
    exact h
  | logout => simp [stepSession, userCreditsOk]

/-- One session step preserves the non-negativity of `creditsRemaining`,
given a well-formed operation and a non-negative identity balance. -/
theorem step_statsNonneg (st : SessionState) (op : SessionOp)
    (hU : userCreditsOk st = true) (hS : statsNonneg st = true) (hop : opOk op = true) :
    statsNonneg (stepSession st op) = true := by
  cases op with
  | fetchStats resp =>
    cases hcur : st.currentUser with
    | none => simpa [stepSession, hcur] using hS
    | some user =>
      have hcredits : ∀ c, user.credits = some c → 0 ≤ c := by
        intro c hc
        simp only [userCreditsOk, hcur, hc] at hU
        exact of_decide_eq_true hU
      simp only [stepSession, hcur]
      by_cases hl : isLocalId user.id
      · simp only [fetchUserStats, hl, if_true, statsNonneg]
        exact decide_eq_true (localDefaultStats_nonneg user hcredits)
      · cases resp with
        | ok s =>
          simp only [fetchUserStats, hl, Bool.false_eq_true, if_false, statsNonneg]
          simpa [opOk] using hop
        | unreachable =>
          simp only [fetchUserStats, hl, Bool.false_eq_true, if_false, statsNonneg]
          exact decide_eq_true (localDefaultStats_nonneg user hcredits)
        | rejected d =>
          simp only [fetchUserStats, hl, Bool.false_eq_true, if_false, statsNonneg]
          rw [statsNonneg] at hS
          exact hS
  | fetchReports resp =>
    cases hcur : st.currentUser with
    | none => simpa [stepSession, hcur] using hS
    | some user =>
      simp only [stepSession, hcur, statsNonneg]
      rw [statsNonneg] at hS
      exact hS
  | submit resp nowMs nowIso =>
    rcases submit_userStats_cases st resp nowMs nowIso with h | ⟨user, _, h⟩
    · simp only [stepSession]
      rw [statsNonneg, h]
      rw [statsNonneg] at hS
      exact hS
    · simp only [stepSession]
      rw [statsNonneg, h]
      exact decide_eq_true (debitStats_nonneg st.userStats user)
  | logout => simp [stepSession, statsNonneg]

/-- Over any well-formed operation sequence, `creditsRemaining` stays
non-negative. -/
theorem runSession_statsNonneg (ops : List SessionOp) : ∀ (s0 : SessionState),
    statsNonneg s0 = true → userCreditsOk s0 = true → ops.all opOk = true →
    statsNonneg (runSession s0 ops) = true := by
  induction ops with
  | nil => intro s0 h1 _ _; exact h1
  | cons op rest ih =>
    intro s0 h1 h2 hall
    rw [List.all_cons, Bool.and_eq_true] at hall
    exact ih (stepSession s0 op)
      (step_statsNonneg s0 op h2 h1 hall.1)
      (step_userCreditsOk s0 op h2) hall.2

/-- Prepending a fixed string to two distinct strings keeps them distinct. -/
theorem string_append_left_injective (p a b : String) (h : p ++ a = p ++ b) : a = b := by
  cases p with
  | mk lp =>
    cases a with
    | mk la =>
      cases b with
      | mk lb =>
        have hd : lp ++ la = lp ++ lb := congrArg String.data h
        exact congrArg String.mk (List.append_cancel_left hd)

/-- C2: the claim fails on the code in two reachable ways.  (i) When
AccountStats is unknown at submission (here: the stats fetch was Rejected,
leaving `none`) and the declared balance of the identity is 0, the
insufficient-credits guard does not fire, a question completes locally, and
the debit clamps at `max(0, 0-1) = 0`: the only credit baseline this session
ever had is 0 and it is still 0 after the completed question, so no decrease
by exactly 1 happened (it cannot, since 0-1 is negative).  (ii) After a
remote completion the client performs no debit at all — it refetches stats,
storing whatever the backend reports; here a well-formed refresh (`opOk`
holds for every operation) leaves `creditsRemaining` at 50 although a
question completed remotely. -/
theorem c2_credit_debit_cx :
    (runSession exStZeroNoStats [.submit .unreachable 7 ("T")]).userStats =
      some { credits_remaining := 0, total_questions_asked := 1,
             reports_generated := 1, credits_used := 1 } ∧
    (runSession exStZeroNoStats [.submit .unreachable 7 ("T")]).reports.map
        (fun it => it.question.status) = [("completed")] ∧
    exUserZero.credits = some 0 ∧
    ((0 : Int) ≠ 0 - 1) ∧
    (runSession exStFifty
        [.submit (.ok ("q1")) 8 ("T"),
         .fetchStats (.ok { credits_remaining := 50, total_questions_asked := 1,
                            reports_generated := 1, credits_used := 1 }),
         .fetchReports (.ok [exRemoteItem])]).userStats =
      some { credits_remaining := 50, total_questions_asked := 1,
             reports_generated := 1, credits_used := 1 } ∧
    (runSession exStFifty
        [.submit (.ok ("q1")) 8 ("T"),
         .fetchStats (.ok { credits_remaining := 50, total_questions_asked := 1,
                            reports_generated := 1, credits_used := 1 }),
         .fetchReports (.ok [exRemoteItem])]).reports.map
        (fun it => it.question.status) = [("completed")] ∧
    ([SessionOp.submit (.ok ("q1")) 8 ("T"),
      .fetchStats (.ok { credits_remaining := 50, total_questions_asked := 1,
                         reports_generated := 1, credits_used := 1 }),
      .fetchReports (.ok [exRemoteItem])].all opOk = true) ∧
    ((50 : Int) ≠ 50 - 1) := by
  refine ⟨by decide, by decide, by decide, by decide, by decide, by decide, by decide, by decide⟩

/-- C2 (amended): (1) over every session trace whose identity balance and
successful stats responses are non-negative, `creditsRemaining` never
becomes negative; (2) each locally completed question debits
`creditsRemaining` by exactly 1 whenever AccountStats is known at submission
(the insufficient-credits guard then guarantees the result stays ≥ 0);
(3) each local submission performs exactly one debit and creates exactly
one completed question, whose id is `local-q-<timestamp>`, so a question id
is debited at most once; (4) distinct rendered timestamps give distinct
question ids.  After a remote completion, `creditsRemaining` is whatever the
refreshed backend stats report (no client-side debit). -/
theorem c2_credits_amended :
    (∀ (s0 : SessionState) (ops : List SessionOp),
      statsNonneg s0 = true → userCreditsOk s0 = true → ops.all opOk = true →
        statsNonneg (runSession s0 ops) = true) ∧
    (∀ (st : SessionState) (user : Identity) (s : UserStats) (resp : ApiResult String)
        (nowMs : Nat) (nowIso : String),
      st.currentUser = some user → st.userStats = some s →
      jsTrim st.question ≠ "" → insufficientCredits st.userStats = false →
      (resp = ApiResult.unreachable ∨ (isLocalId user.id = true ∧ resp.isOk = false)) →
        1 ≤ s.credits_remaining ∧
        (submitResearchQuestion st resp nowMs nowIso).state.userStats =
          some { credits_remaining := s.credits_remaining - 1
                 total_questions_asked := s.total_questions_asked + 1
                 reports_generated := s.reports_generated + 1
                 credits_used := s.credits_used + 1 } ∧
        0 ≤ s.credits_remaining - 1) ∧
    (∀ (st : SessionState) (user : Identity) (resp : ApiResult String)
        (nowMs : Nat) (nowIso : String),
      st.currentUser = some user →
      jsTrim st.question ≠ "" → insufficientCredits st.userStats = false →
      (resp = ApiResult.unreachable ∨ (isLocalId user.id = true ∧ resp.isOk = false)) →
        (submitResearchQuestion st resp nowMs nowIso).state.reports =
          localReportItem user st.question st.uploadedFiles nowMs nowIso :: st.reports ∧
        (localReportItem user st.question st.uploadedFiles nowMs nowIso).question.id =
          "local-q-" ++ toString nowMs ∧
        (localReportItem user st.question st.uploadedFiles nowMs nowIso).question.status =
          "completed" ∧
        (submitResearchQuestion st resp nowMs nowIso).state.userStats =
          some (debitStats st.userStats user) ∧
        (debitStats st.userStats user).credits_used =
          (st.userStats.map (fun x => x.credits_used)).getD 0 + 1) ∧
    (∀ a b : Nat, toString a ≠ toString b →
      ("local-q-" ++ toString a : String) ≠ "local-q-" ++ toString b) := by
  refine ⟨fun s0 ops h1 h2 h3 => runSession_statsNonneg ops s0 h1 h2 h3, ?_, ?_, ?_⟩
  · intro st user s resp nowMs nowIso hu hs hq hcred hresp
    have h1 : 1 ≤ s.credits_remaining := by
      rw [hs] at hcred
      simp only [insufficientCredits, decide_eq_false_iff_not, not_lt] at hcred
      exact hcred
    refine ⟨h1, ?_, by omega⟩
    rw [submit_local_eq st user resp nowMs nowIso hu hq hcred hresp]
    show some (debitStats st.userStats user) = _
    rw [hs]
    simp only [debitStats]
    rw [max_eq_right (by omega)]
    simp
  · intro st user resp nowMs nowIso hu hq hcred hresp
    rw [submit_local_eq st user resp nowMs nowIso hu hq hcred hresp]
    exact ⟨rfl, rfl, rfl, rfl, rfl⟩
  · intro a b hab h
    exact hab (string_append_left_injective ("local-q-") _ _ h)

/-- C2 (amended, witness): a concrete non-negative trace; an exact debit
from 10 known credits to 9; a single completed local question with id
`local-q-5`; distinct ids for timestamps 5 and 6. -/
theorem c2_credits_amended_witness :
    statsNonneg (runSession exStLocalTenCredits
      [.fetchStats (.rejected ("x")), .submit .unreachable 5 ("T"), .logout]) = true ∧
    (submitResearchQuestion exStLocalTenCredits .unreachable 5 ("T")).state.userStats =
      some { credits_remaining := 9, total_questions_asked := 1,
             reports_generated := 1, credits_used := 1 } ∧
    (localReportItem exLocalUser ("Q") [exFile] 5 ("T")).question.id = "local-q-" ++ toString 5 ∧
    ("local-q-" ++ toString 5 : String) ≠ "local-q-" ++ toString 6 := by
  refine ⟨c2_credits_amended.1 exStLocalTenCredits _ (by decide) (by decide) (by decide),
    ?_, ?_, ?_⟩
  · have h := c2_credits_amended.2.1 exStLocalTenCredits exLocalUser
      { credits_remaining := 10, total_questions_asked := 0,
        reports_generated := 0, credits_used := 0 } .unreachable 5 ("T")
      rfl rfl (by decide) rfl (Or.inl rfl)
    exact h.2.1
  · have h := c2_credits_amended.2.2.1 exStLocalTenCredits exLocalUser .unreachable 5 ("T")
      rfl (by decide) rfl (Or.inl rfl)
    exact h.2.1
  · exact c2_credits_amended.2.2.2 5 6 (by decide)

/-- A non-terminal poll response (a received `processing` status, or an
Unreachable failure) consumes one attempt and reschedules. -/
theorem pollGoAux_cont (responses : Nat → PollResp) (k r : Nat)
    (h : responses k = .status ("processing") ∨ responses k = .unreachable) :
    pollGoAux responses k (r + 1) = pollGoAux responses (k + 1) r := by
  rcases h with h | h <;> simp [pollGoAux, h]

/-- Running `m` consecutive non-terminal responses from attempt `k`. -/
theorem pollGoAux_run (responses : Nat → PollResp) :
    ∀ (m k r : Nat),
      (∀ i, k ≤ i → i < k + m →
        responses i = .status ("processing") ∨ responses i = .unreachable) →
      pollGoAux responses k (m + r) = pollGoAux responses (k + m) r := by
  intro m
  induction m with
  | zero => intro k r _; rw [Nat.zero_add, Nat.add_zero]
  | succ n ih =>
    intro k r hresp
    have h0 := hresp k le_rfl (by omega)
    have step : pollGoAux responses k (n + r + 1) = pollGoAux responses (k + 1) (n + r) :=
      pollGoAux_cont responses k (n + r) h0
    have heq : n + 1 + r = n + r + 1 := by omega
    rw [heq, step, ih (k + 1) r (fun i h1 h2 => hresp i (by omega) (by omega))]
    congr 1
    omega

/-- C3: the polling loop is capped at `maxAttempts = 30` attempts at a fixed
1000 ms interval.  Scenario A: `processing` 29 times, then `completed` on
the 30th poll — the outcome is completed, the refreshed Report collection is
exactly the backend response (one longer than before, given a backend
response one longer than before), and the view switches to reports.
Scenario B: `processing` with no terminal status — the outcome is timed out,
the Report collection is untouched and the timeout error is shown. -/
theorem c3_polling_scenarios :
    maxAttempts = 30 ∧ pollIntervalMs = 1000 ∧
    (∀ (responses : Nat → PollResp) (st : SessionState) (user : Identity)
        (statsResp : ApiResult UserStats) (l : List ReportItem),
      (∀ i, i < 29 → responses i = .status ("processing")) →
      responses 29 = .status ("completed") →
      isLocalId user.id = false →
      l.length = st.reports.length + 1 →
        pollGo responses = .completedOk ∧
        (pollForResults st user responses statsResp (.ok l)).1.reports = l ∧
        (pollForResults st user responses statsResp (.ok l)).1.reports.length
          = st.reports.length + 1 ∧
        (pollForResults st user responses statsResp (.ok l)).1.activeTab = "reports") ∧
    (∀ (responses : Nat → PollResp) (st : SessionState) (user : Identity)
        (statsResp : ApiResult UserStats) (reportsResp : ApiResult (List ReportItem)),
      (∀ i, responses i = .status ("processing")) →
        pollGo responses = .timedOut ∧
        (pollForResults st user responses statsResp reportsResp).1.reports = st.reports ∧
        (pollForResults st user responses statsResp reportsResp).2 =
          [.error ("Research processing timed out")]) := by
  refine ⟨rfl, rfl, ?_, ?_⟩
  · intro responses st user statsResp l hproc hcomp hlocal hlen
    have hpoll : pollGo responses = .completedOk := by
      unfold pollGo maxAttempts
      have h1 := pollGoAux_run responses 29 0 1
        (fun i hi1 hi2 => Or.inl (hproc i (by omega)))
      norm_num at h1
      rw [show (30 : Nat) = 29 + 1 from rfl, h1]
      simp [pollGoAux, hcomp]
    have hres : (pollForResults st user responses statsResp (.ok l)).1.reports =
        (fetchUserReports user st.reports (.ok l)).reports := by
      unfold pollForResults
      rw [hpoll]
    have hrep : (fetchUserReports user st.reports (.ok l)).reports = l := by
      simp [fetchUserReports, hlocal]
    have htab : (pollForResults st user responses statsResp (.ok l)).1.activeTab
        = "reports" := by
      unfold pollForResults
      rw [hpoll]
    exact ⟨hpoll, hres.trans hrep, by rw [hres, hrep, hlen], htab⟩
  · intro responses st user statsResp reportsResp hproc
    have hpoll : pollGo responses = .timedOut := by
      unfold pollGo maxAttempts
      have h1 := pollGoAux_run responses 30 0 0 (fun i _ _ => Or.inl (hproc i))
      norm_num at h1
      rw [show (30 : Nat) = 30 + 0 from rfl, h1]
      simp [pollGoAux, hproc 30]
    refine ⟨hpoll, ?_, ?_⟩ <;> (unfold pollForResults; rw [hpoll])

/-- C3 (witness): the two scenarios at concrete inputs. -/
theorem c3_polling_scenarios_witness :
    pollGo exRespCompleted30 = .completedOk ∧
    (pollForResults exStFifty exUserFifty exRespCompleted30 .unreachable
        (.ok [exRemoteItem])).1.reports = [exRemoteItem] ∧
    (pollForResults exStFifty exUserFifty exRespCompleted30 .unreachable
        (.ok [exRemoteItem])).1.reports.length = exStFifty.reports.length + 1 ∧
    pollGo exRespProcessing = .timedOut ∧
    (pollForResults exStFifty exUserFifty exRespProcessing .unreachable
        (.ok [exRemoteItem])).1.reports = exStFifty.reports := by
  have hA := c3_polling_scenarios.2.2.1 exRespCompleted30 exStFifty exUserFifty
    .unreachable [exRemoteItem]
    (fun i hi => by simp [exRespCompleted30, hi]) (by decide) (by decide) (by decide)
  have hB := c3_polling_scenarios.2.2.2 exRespProcessing exStFifty exUserFifty
    .unreachable (.ok [exRemoteItem]) (fun i => rfl)
  exact ⟨hA.1, hA.2.1, hA.2.2.1, hB.1, hB.2.1⟩

/-- C6: (i) a transient Unreachable poll result never terminates the loop —
it consumes one attempt and the loop continues; (ii) under permanent
Unreachable results the loop runs to the same 30-attempt cap and then
reports the status-check error (not the timeout); (iii) a poll failure that
is not Unreachable (a Rejected response) terminates the loop immediately
with the status-check error, regardless of attempts remaining. -/
theorem c6_poll_unreachable :
    (∀ (responses : Nat → PollResp) (k r : Nat),
      responses k = .unreachable →
        pollGoAux responses k (r + 1) = pollGoAux responses (k + 1) r) ∧
    (∀ (responses : Nat → PollResp) (st : SessionState) (user : Identity)
        (statsResp : ApiResult UserStats) (reportsResp : ApiResult (List ReportItem)),
      (∀ i, responses i = .unreachable) →
        pollGo responses = .statusCheckError ∧
        (pollForResults st user responses statsResp reportsResp).1.reports = st.reports ∧
        (pollForResults st user responses statsResp reportsResp).2 =
          [.error ("Error checking research status")]) ∧
    (∀ (responses : Nat → PollResp) (k r : Nat),
      responses k = .rejected → pollGoAux responses k r = .statusCheckError) := by
  refine ⟨?_, ?_, ?_⟩
  · intro responses k r h
    exact pollGoAux_cont responses k r (Or.inr h)
  · intro responses st user statsResp reportsResp hunr
    have hpoll : pollGo responses = .statusCheckError := by
      unfold pollGo maxAttempts
      have h1 := pollGoAux_run responses 30 0 0 (fun i _ _ => Or.inr (hunr i))
      norm_num at h1
      rw [show (30 : Nat) = 30 + 0 from rfl, h1]
      simp [pollGoAux, hunr 30]
    refine ⟨hpoll, ?_, ?_⟩ <;> (unfold pollForResults; rw [hpoll])
  · intro responses k r h
    cases r <;> simp [pollGoAux, h]

/-- C6 (witness): one Unreachable step at attempts 3; the permanent
Unreachable cap outcome; the immediate Rejected termination. -/
theorem c6_poll_unreachable_witness :
    pollGoAux exRespUnreachable 3 6 = pollGoAux exRespUnreachable 4 5 ∧
    pollGo exRespUnreachable = .statusCheckError ∧
    (pollForResults exStFifty exUserFifty exRespUnreachable .unreachable
        .unreachable).2 = [.error ("Error checking research status")] ∧
    pollGoAux exRespRejected 0 30 = .statusCheckError := by
  have hB := c6_poll_unreachable.2.1 exRespUnreachable exStFifty exUserFifty
    .unreachable .unreachable (fun i => rfl)
  exact ⟨c6_poll_unreachable.1 exRespUnreachable 3 5 rfl, hB.1, hB.2.2,
    c6_poll_unreachable.2.2 exRespRejected 0 30 rfl⟩

end App
